import Mathlib

/- Verification development for the two batch-creation command-line tools
   orca6-batch-create.py (tool 1) and orca6-batch-prune-create.py (tool 2).
   Python integers are modelled as `Int` (`Int.fdiv` is Python floor division),
   fallible operations return `Option`/`Except`, and filesystem mutation is
   modelled as an explicit trace of effects produced by pure functions. -/

namespace Orca

set_option maxRecDepth 16384

/-- Length of the Python range `range(start, stop, step)`. A `step` of zero is
rejected by Python before iterating; the callers below never pass it. -/
def pyRangeLen (start stop step : Int) : Nat :=
  if 0 < step then ((stop - start + step - 1).fdiv step).toNat
  else if step < 0 then ((start - stop + (-step) - 1).fdiv (-step)).toNat
  else 0

/-- The Python range `range(start, stop, step)` as a list. -/
def pyRange (start stop step : Int) : List Int :=
  (List.range (pyRangeLen start stop step)).map (fun k : Nat => start + step * (k : Int))

/-- Python slice `lines[i : i + n]` for a non-negative start index `i`, the only
way it is used below (slice starts come from `pyRange 0 _ step` with `0 < step`,
and a non-positive slice width yields the empty slice, as in Python). -/
def pySlice (lines : List String) (i n : Int) : List String :=
  (lines.drop i.toNat).take n.toNat

/-- Tool 1 `chunk_lines` (orca6-batch-create.py, lines 60-65):
the comprehension over `range(0, (len(lines) // n) * n, n)` of `lines[i:i+n]`.
The result `none` models the `ZeroDivisionError` that `len(lines) // n` raises
at `n = 0`; the function has no guard on `n`. -/
def chunk_lines₁ (lines : List String) (n : Int) : Option (List (List String)) :=
  if n = 0 then none
  else some ((pyRange 0 (((lines.length : Int).fdiv n) * n) n).map (fun i => pySlice lines i n))

/-- Tool 2 `chunk_lines` (orca6-batch-prune-create.py, lines 55-60): returns the
empty list for `n <= 0`, otherwise the same comprehension over
`range(0, usable, n)` with `usable = (len(lines) // n) * n`. -/
def chunk_lines₂ (lines : List String) (n : Int) : List (List String) :=
  if n ≤ 0 then []
  else (pyRange 0 (((lines.length : Int).fdiv n) * n) n).map (fun i => pySlice lines i n)

/-- Python `list(range(k))`. -/
def intRange (k : Int) : List Int :=
  (List.range k.toNat).map (fun i : Nat => (i : Int))

/-- Python `sorted(set(l))`: the ascending duplicate-free enumeration of the
distinct elements of `l`. -/
def sortedSet (l : List Int) : List Int :=
  List.insertionSort (· ≤ ·) l.dedup

/-- The loop `while j < remaining: selected.append(base + j); j += step` of
`select_indices`, written with explicit fuel. Fuel `remaining.toNat` suffices
whenever `1 ≤ step`, which is the only way the loop is reached. -/
def strideLoop (fuel : Nat) (base j step remaining : Int) : List Int :=
  match fuel with
  | 0 => []
  | fuel + 1 =>
    if j < remaining then (base + j) :: strideLoop fuel base (j + step) step remaining
    else []

/-- Tool 2 `select_indices` (orca6-batch-prune-create.py, lines 100-125).
The `.error` value models the raised `ValueError` for a non-positive
denominator; the Python function returns `sorted(set(selected))`. -/
def select_indices (total first_count : Int) (prune_den : Option Int) :
    Except String (List Int) :=
  if total ≤ 0 then .ok []
  else
    let first := max 0 (min first_count total)
    let selected := intRange first
    match prune_den with
    | none => .ok (sortedSet selected)
    | some P =>
      if P ≤ 0 then .error "-prune must be a positive integer."
      else
        let remaining := total - first
        .ok (sortedSet (selected ++ strideLoop remaining.toNat first 0 P remaining))

/-- Common normal form of both chunkers for a positive chunk size `m`:
`floor (length / m)` consecutive blocks of `m` lines each. -/
def chunksSpec (m : Nat) (L : List String) : List (List String) :=
  (List.range (L.length / m)).map (fun k => (L.drop (m * k)).take m)

/-- Tool 1 `build_cleanup_script` (orca6-batch-create.py, lines 75-108): the
triple-quoted literal, byte for byte (the source file is UTF-8; the dash on the
second line is the em dash U+2014). -/
def build_cleanup_script₁ : String :=
  "#!/usr/bin/env bash\n# cleanup.sh — remove common ORCA scratch/intermediate files safely.\n# Adjust patterns as needed; by default we keep *.out, *.xyz, *.gbw.\n\nset -euo pipefail\n\n# Patterns that are generally safe to delete (review for your case):\npatterns=(\n  \"*.tmp\"\n  \"*.trj\"\n  \"*.pc_*.xyz\"\n  \"*.engrad\"\n  \"*.hess\"\n  \"*.molden.input\"\n  \"*.mdci\"\n  \"*.mdprop\"\n  \"orca.*\"\n  \"scratch\"\n  \"tmp\"\n)\n\nshopt -s nullglob\nfor p in \"$\x7bpatterns[@]\x7d\"; do\n  rm -rf $p\ndone\n\necho \"Cleanup done.\"\n"

/-- Tool 2 `build_cleanup_script` (orca6-batch-prune-create.py, lines 70-97):
the triple-quoted literal, byte for byte. Its second line carries the
three-character mojibake sequence U+00E2 U+20AC U+201D where tool 1 has the em
dash, and the comment line about deletable patterns is absent. -/
def build_cleanup_script₂ : String :=
  "#!/usr/bin/env bash\n# cleanup.sh â€” remove common ORCA scratch/intermediate files safely.\n# Adjust patterns as needed; by default we keep *.out, *.xyz, *.gbw.\n\nset -euo pipefail\n\npatterns=(\n  \"*.tmp\"\n  \"*.trj\"\n  \"*.pc_*.xyz\"\n  \"*.engrad\"\n  \"*.hess\"\n  \"*.molden.input\"\n  \"*.mdci\"\n  \"*.mdprop\"\n  \"orca.*\"\n  \"scratch\"\n  \"tmp\"\n)\n\nshopt -s nullglob\nfor p in \"$\x7bpatterns[@]\x7d\"; do\n  rm -rf $p\ndone\n\necho \"Cleanup done.\"\n"

/-- Modelled from the spec: the fixed cleanup-script text that section 6 of the
specification presents verbatim, to be compared with the constants the source
actually embeds. -/
def specCleanupScript : String :=
  "#!/usr/bin/env bash\nset -euo pipefail\npatterns=(\n  \"*.tmp\" \"*.trj\" \"*.pc_*.xyz\" \"*.engrad\" \"*.hess\"\n  \"*.molden.input\" \"*.mdci\" \"*.mdprop\" \"orca.*\" \"scratch\" \"tmp\"\n)\nshopt -s nullglob\nfor p in \"$\x7bpatterns[@]\x7d\"; do\n  rm -rf $p\ndone\necho \"Cleanup done.\"\n"

/-- Filesystem mutation performed by a tool run: a `mkdir(parents=True,
exist_ok=True)` call, or a file write (with or without the 0755 chmod). -/
inductive Eff where
  | mkdirp (path : String)
  | write (path : String) (content : String) (executable : Bool)
  deriving DecidableEq

/-- How a process run ends: a normal return from `main` wrapped in `sys.exit`
with a code, or an uncaught Python exception (traceback printed, interpreter
exit status 1). -/
inductive Outcome where
  | exit (code : Int)
  | crash (msg : String)
  deriving DecidableEq

/-- Tool 1 `ensure_dir` (orca6-batch-create.py, lines 111-130), on a path whose
existence, kind and non-emptiness are given by the three booleans. An `.error`
models the raised `RuntimeError`; the returned effects record the `mkdir`
performed when the path does not exist. -/
def ensure_dir (path : String) (ex isDir nonEmpty force : Bool) :
    Except String (List Eff) :=
  if !ex then .ok [Eff.mkdirp path]
  else if !isDir then .error ("Path exists and is not a directory: " ++ path)
  else if nonEmpty && !force then
    .error ("Directory " ++ path ++
      " already exists and is not empty. Use --force to allow reuse.")
  else .ok []

/-- Inputs consulted by tool 1 `main`: the parsed flags, whether the geometry
list is an existing file, its decoded line list, the resolved `-i`/`-s` texts
(results of `read_arg_text_or_file`), and the pre-run state of any directory
path the run may examine. -/
structure Env1 where
  geomExists : Bool
  lines : List String
  n : Int
  out : String
  force : Bool
  dryRun : Bool
  orcaText : String
  slurmText : String
  dirExists : String → Bool
  dirIsDir : String → Bool
  dirNonempty : String → Bool

/-- The per-chunk loop of tool 1 `main` (orca6-batch-create.py, lines 215-241):
in dry-run mode only messages are printed; otherwise `ensure_dir` runs (its
`RuntimeError` is not caught anywhere, so it crashes the process) and the four
files are written. -/
def tool1_loop (e : Env1) (orca slurm cleanup : String) :
    Nat → List (List String) → Outcome × List Eff
  | _, [] => (.exit 0, [])
  | idx, chunk :: rest =>
    let subdir := e.out ++ "/" ++ toString idx
    if e.dryRun then tool1_loop e orca slurm cleanup (idx + 1) rest
    else
      match ensure_dir subdir (e.dirExists subdir) (e.dirIsDir subdir)
          (e.dirNonempty subdir) e.force with
      | .error msg => (.crash msg, [])
      | .ok effs =>
        let geomContent := String.intercalate "\n" chunk ++ "\n"
        let writes := [Eff.write (subdir ++ "/geometry.xyz") geomContent false,
                       Eff.write (subdir ++ "/orca6.inp") orca false,
                       Eff.write (subdir ++ "/job.slurm") slurm false,
                       Eff.write (subdir ++ "/cleanup.sh") cleanup true]
        let r := tool1_loop e orca slurm cleanup (idx + 1) rest
        (r.1, effs ++ writes ++ r.2)

/-- Tool 1 `main` (orca6-batch-create.py, lines 133-244) as a function from its
consulted inputs to the process outcome and the filesystem effect trace. The
output root is `mkdir`-ed unconditionally once validation passes, before
chunking and before the dry-run branch. -/
def tool1_main (e : Env1) : Outcome × List Eff :=
  if !e.geomExists then (.exit 2, [])
  else if e.n ≤ 0 then (.exit 2, [])
  else
    match chunk_lines₁ e.lines e.n with
    | none => (.crash "ZeroDivisionError", [Eff.mkdirp e.out])
    | some chunks =>
      if chunks.length = 0 then (.exit 0, [Eff.mkdirp e.out])
      else
        let r := tool1_loop e e.orcaText e.slurmText build_cleanup_script₁ 1 chunks
        (r.1, Eff.mkdirp e.out :: r.2)

/-- Inputs consulted by tool 2 `main`: parsed flags, geometry-list state and
content, resolved template texts, and pre-run directory state. -/
structure Env2 where
  geomExists : Bool
  lines : List String
  n : Int
  first : Int
  prune : Option Int
  orcaText : String
  slurmText : String
  dirExists : String → Bool
  dirIsDir : String → Bool
  dirNonempty : String → Bool

/-- The per-selection loop of tool 2 `main` (orca6-batch-prune-create.py, lines
200-215). The inline non-empty-directory check prints an error and returns exit
code 2; `mkdir(parents=True, exist_ok=True)` on a path existing as a
non-directory raises `FileExistsError`, and `chunks[geom_idx]` out of range
raises `IndexError` (both uncaught). -/
def tool2_loop (e : Env2) (orca slurm cleanup : String) :
    Nat → List Int → List (List String) → Outcome × List Eff
  | _, [], _ => (.exit 0, [])
  | ordIdx, geomIdx :: rest, chunks =>
    let subdir := toString ordIdx
    let dirStep : Except Outcome (List Eff) :=
      if e.dirExists subdir && e.dirIsDir subdir then
        if e.dirNonempty subdir then .error (.exit 2) else .ok []
      else if e.dirExists subdir then .error (.crash "FileExistsError")
      else .ok [Eff.mkdirp subdir]
    match dirStep with
    | .error o => (o, [])
    | .ok effs =>
      match (if 0 ≤ geomIdx then chunks[geomIdx.toNat]? else none) with
      | none => (.crash "IndexError", effs)
      | some chunk =>
        let geomContent := String.intercalate "\n" chunk ++ "\n"
        let writes := [Eff.write (subdir ++ "/geometry.xyz") geomContent false,
                       Eff.write (subdir ++ "/orca6.inp") orca false,
                       Eff.write (subdir ++ "/job.slurm") slurm false,
                       Eff.write (subdir ++ "/cleanup.sh") cleanup true]
        let r := tool2_loop e orca slurm cleanup (ordIdx + 1) rest chunks
        (r.1, effs ++ writes ++ r.2)

/-- The chunking, selection and materialization stage of tool 2 `main`
(orca6-batch-prune-create.py, lines 165-218), reached after flag validation. -/
def tool2_run (e : Env2) : Outcome × List Eff :=
  let chunks := chunk_lines₂ e.lines e.n
  if chunks.length = 0 then (.exit 0, [])
  else
    match select_indices (chunks.length : Int) e.first e.prune with
    | .error _ => (.exit 2, [])
    | .ok indices =>
      if indices.isEmpty then (.exit 0, [])
      else tool2_loop e e.orcaText e.slurmText build_cleanup_script₂ 1 indices chunks

/-- Tool 2 `main` (orca6-batch-prune-create.py, lines 128-218) as a function
from its consulted inputs to the process outcome and the effect trace. All four
validations happen before any filesystem mutation. -/
def tool2_main (e : Env2) : Outcome × List Eff :=
  if !e.geomExists then (.exit 2, [])
  else if e.n ≤ 0 then (.exit 2, [])
  else if e.first < 0 then (.exit 2, [])
  else
    match e.prune with
    | some P => if P ≤ 0 then (.exit 2, []) else tool2_run e
    | none => tool2_run e

/-- The four artifacts of one materialized job directory as the specification
describes them (section 4.4): the directory itself, the chunk lines joined with
newlines plus one trailing newline, the two template texts verbatim, and the
executable cleanup script. -/
def dirWrites (d : String) (chunk : List String) (orca slurm cleanup : String) :
    List Eff :=
  [Eff.mkdirp d,
   Eff.write (d ++ "/geometry.xyz") (String.intercalate "\n" chunk ++ "\n") false,
   Eff.write (d ++ "/orca6.inp") orca false,
   Eff.write (d ++ "/job.slurm") slurm false,
   Eff.write (d ++ "/cleanup.sh") cleanup true]

/-- The intended write plan of tool 1: one `dirWrites` block per chunk, in
numbered subdirectories of the output root. -/
def writePlan₁ (out orca slurm cleanup : String) :
    Nat → List (List String) → List Eff
  | _, [] => []
  | idx, c :: rest =>
    dirWrites (out ++ "/" ++ toString idx) c orca slurm cleanup
      ++ writePlan₁ out orca slurm cleanup (idx + 1) rest

/-- The intended write plan of tool 2: one `dirWrites` block per selected chunk
index, in directories named by the 1-based selection ordinal. -/
def writePlan₂ (orca slurm cleanup : String) :
    Nat → List Int → List (List String) → List Eff
  | _, [], _ => []
  | ordIdx, geomIdx :: rest, chunks =>
    dirWrites (toString ordIdx) (chunks[geomIdx.toNat]?.getD []) orca slurm cleanup
      ++ writePlan₂ orca slurm cleanup (ordIdx + 1) rest chunks

/- Chunker lemmas -/

theorem pyRangeLen_mul (q n : Int) (hn : 1 ≤ n) :
    pyRangeLen 0 (q * n) n = q.toNat := by
  unfold pyRangeLen
  rw [if_pos (by omega : (0 : Int) < n)]
  have h1 : q * n - 0 + n - 1 = (n - 1) + q * n := by ring
  rw [h1, Int.fdiv_eq_ediv _ (by omega),
    Int.add_mul_ediv_right _ _ (by omega : n ≠ 0),
    Int.ediv_eq_zero_of_lt (by omega) (by omega), zero_add]

theorem chunk_map_eq_chunksSpec (L : List String) (n : Int) (hn : 1 ≤ n) :
    (pyRange 0 (((L.length : Int).fdiv n) * n) n).map (fun i => pySlice L i n) =
      chunksSpec n.toNat L := by
  have hn0 : (0 : Int) ≤ n := by omega
  have hnn : ((n.toNat : Nat) : Int) = n := Int.toNat_of_nonneg hn0
  have hqn : ((L.length : Int).fdiv n).toNat = L.length / n.toNat := by
    have : (L.length : Int).fdiv n = ((L.length / n.toNat : Nat) : Int) := by
      rw [Int.fdiv_eq_ediv _ hn0, Int.natCast_div, hnn]
    rw [this, Int.toNat_natCast]
  rw [pyRange, pyRangeLen_mul _ _ hn, hqn, List.map_map, chunksSpec]
  refine congrArg (fun f => List.map f (List.range (L.length / n.toNat)))
    (funext fun k => ?_)
  show pySlice L (0 + n * (k : Int)) n = (L.drop (n.toNat * k)).take n.toNat
  have hidx : (0 : Int) + n * (k : Int) = ((n.toNat * k : Nat) : Int) := by
    push_cast [hnn]
    ring
  rw [pySlice, hidx, Int.toNat_natCast]

theorem chunk_lines₁_eq (L : List String) (n : Int) (hn : 1 ≤ n) :
    chunk_lines₁ L n = some (chunksSpec n.toNat L) := by
  rw [chunk_lines₁, if_neg (by omega : ¬ n = 0), chunk_map_eq_chunksSpec L n hn]

theorem chunk_lines₂_eq (L : List String) (n : Int) (hn : 1 ≤ n) :
    chunk_lines₂ L n = chunksSpec n.toNat L := by
  rw [chunk_lines₂, if_neg (by omega : ¬ n ≤ 0), chunk_map_eq_chunksSpec L n hn]

theorem chunksSpec_length (m : Nat) (L : List String) :
    (chunksSpec m L).length = L.length / m := by
  simp [chunksSpec]

theorem chunksSpec_mem_length (m : Nat) (L : List String) (c : List String)
    (hc : c ∈ chunksSpec m L) : c.length = m := by
  rw [chunksSpec] at hc
  obtain ⟨k, hk, rfl⟩ := List.mem_map.mp hc
  rw [List.mem_range] at hk
  have h1 : m * k + m ≤ L.length := by
    calc m * k + m = m * (k + 1) := by ring
    _ ≤ m * (L.length / m) := Nat.mul_le_mul_left _ (by omega)
    _ = (L.length / m) * m := Nat.mul_comm _ _
    _ ≤ L.length := Nat.div_mul_le_self _ _
  rw [List.length_take, List.length_drop]
  set t := m * k with ht
  omega

theorem range_map_take_flatten (m : Nat) (L : List String) :
    ∀ q : Nat, ((List.range q).map (fun k => (L.drop (m * k)).take m)).flatten =
      L.take (q * m)
  | 0 => by simp
  | q + 1 => by
    rw [List.range_succ, List.map_append, List.flatten_append,
      range_map_take_flatten m L q]
    simp only [List.map_cons, List.map_nil, List.flatten_cons, List.flatten_nil,
      List.append_nil]
    rw [show (q + 1) * m = q * m + m by ring, List.take_add]
    rw [Nat.mul_comm m q]

theorem chunksSpec_flatten (m : Nat) (L : List String) :
    (chunksSpec m L).flatten = L.take ((L.length / m) * m) := by
  rw [chunksSpec, range_map_take_flatten]

/- Selector lemmas -/

theorem mem_intRange (k i : Int) : i ∈ intRange k ↔ 0 ≤ i ∧ i < k := by
  rw [intRange]
  constructor
  · intro h
    obtain ⟨m, hm, rfl⟩ := List.mem_map.mp h
    rw [List.mem_range] at hm
    omega
  · intro h
    exact List.mem_map.mpr ⟨i.toNat, List.mem_range.mpr (by omega), by omega⟩

theorem intRange_nodup (k : Int) : (intRange k).Nodup :=
  List.Nodup.map Nat.cast_injective (List.nodup_range _)

theorem intRange_sorted (k : Int) : List.Sorted (· ≤ ·) (intRange k) :=
  List.Pairwise.map (fun i : Nat => (i : Int))
    (fun a b (h : a < b) => by show (a : Int) ≤ (b : Int); exact_mod_cast Nat.le_of_lt h)
    (List.pairwise_lt_range _)

theorem mem_sortedSet (l : List Int) (i : Int) : i ∈ sortedSet l ↔ i ∈ l := by
  rw [sortedSet, (List.perm_insertionSort _ _).mem_iff, List.mem_dedup]

theorem sortedSet_sorted (l : List Int) : List.Sorted (· ≤ ·) (sortedSet l) :=
  List.sorted_insertionSort _ _

theorem sortedSet_nodup (l : List Int) : (sortedSet l).Nodup :=
  (List.perm_insertionSort _ _).nodup_iff.mpr (List.nodup_dedup l)

theorem sortedSet_pairwise_lt (l : List Int) : (sortedSet l).Pairwise (· < ·) :=
  ((sortedSet_sorted l).and (sortedSet_nodup l)).imp
    (fun h => lt_of_le_of_ne h.1 h.2)

theorem sortedSet_eq_of_sorted (l : List Int) (hs : List.Sorted (· ≤ ·) l)
    (hn : l.Nodup) : sortedSet l = l := by
  rw [sortedSet, List.dedup_eq_self.mpr hn, List.Sorted.insertionSort_eq hs]

theorem strideLoop_mem_iff (P : Int) (hP : 1 ≤ P) :
    ∀ (fuel : Nat) (j remaining base x : Int), (remaining - j).toNat ≤ fuel →
      (x ∈ strideLoop fuel base j P remaining ↔
        ∃ k : Nat, x = base + j + P * k ∧ j + P * k < remaining)
  | 0, j, remaining, base, x => by
    intro hfuel
    rw [strideLoop]
    simp only [List.not_mem_nil, false_iff, not_exists, not_and]
    intro k hx
    have hk : (0 : Int) ≤ P * k := by positivity
    omega
  | fuel + 1, j, remaining, base, x => by
    intro hfuel
    rw [strideLoop]
    by_cases hj : j < remaining
    · rw [if_pos hj, List.mem_cons,
        strideLoop_mem_iff P hP fuel (j + P) remaining base x (by omega)]
      constructor
      · rintro (rfl | ⟨k, hx, hk⟩)
        · exact ⟨0, by push_cast; ring, by push_cast; linarith⟩
        · refine ⟨k + 1, ?_, ?_⟩
          · rw [hx]; push_cast; ring
          · have h1 : P * ((k : Int) + 1) = P * k + P := by ring
            push_cast
            linarith
      · rintro ⟨k, hx, hk⟩
        match k with
        | 0 =>
          left
          rw [hx]; push_cast; ring
        | k + 1 =>
          right
          refine ⟨k, ?_, ?_⟩
          · rw [hx]; push_cast; ring
          · have h1 : P * ((k : Int) + 1) = P * k + P := by ring
            push_cast at hk
            linarith
    · rw [if_neg hj]
      simp only [List.not_mem_nil, false_iff, not_exists, not_and]
      intro k hx
      have hk : (0 : Int) ≤ P * k := by positivity
      omega

theorem select_indices_none_eq (total fc : Int) (h0 : ¬ total ≤ 0) :
    select_indices total fc none =
      .ok (sortedSet (intRange (max 0 (min fc total)))) := by
  unfold select_indices
  rw [if_neg h0]

theorem select_indices_some_eq (total fc P : Int) (h0 : ¬ total ≤ 0) (hP : ¬ P ≤ 0) :
    select_indices total fc (some P) =
      .ok (sortedSet (intRange (max 0 (min fc total)) ++
        strideLoop (total - max 0 (min fc total)).toNat (max 0 (min fc total)) 0 P
          (total - max 0 (min fc total)))) := by
  unfold select_indices
  rw [if_neg h0]
  simp only [if_neg hP]

theorem select_indices_spec (total fc : Int) (p : Option Int) (ht : 0 ≤ total)
    (hp : ∀ P, p = some P → 1 ≤ P) :
    ∃ l, select_indices total fc p = .ok l ∧ l.Pairwise (· < ·) ∧
      ∀ i ∈ l, 0 ≤ i ∧ i < total := by
  by_cases h0 : total ≤ 0
  · refine ⟨[], ?_, List.Pairwise.nil, by simp⟩
    unfold select_indices
    rw [if_pos h0]
  · have hf1 : 0 ≤ max 0 (min fc total) := le_max_left _ _
    have hf2 : max 0 (min fc total) ≤ total := by omega
    cases p with
    | none =>
      refine ⟨_, select_indices_none_eq total fc h0, sortedSet_pairwise_lt _, ?_⟩
      intro i hi
      rw [mem_sortedSet, mem_intRange] at hi
      omega
    | some P =>
      have hP : 1 ≤ P := hp P rfl
      refine ⟨_, select_indices_some_eq total fc P h0 (by omega),
        sortedSet_pairwise_lt _, ?_⟩
      intro i hi
      rw [mem_sortedSet, List.mem_append, mem_intRange,
        strideLoop_mem_iff P hP _ 0 (total - max 0 (min fc total))
          (max 0 (min fc total)) i (by omega)] at hi
      rcases hi with h | ⟨k, hx, hk⟩
      · omega
      · have hknn : (0 : Int) ≤ P * k := by positivity
        constructor <;> [linarith [hx]; linarith [hx, hk]]

/-- C1: for every list of lines `L` and every integer `n > 0`, `chunk_lines`
(which both tools agree on for positive `n`) returns exactly `len L / n` chunks,
each of length exactly `n`, whose concatenation is the prefix of `L` of length
`(len L / n) * n`; in particular the result is empty for `L = []` and whenever
`len L < n`. -/
theorem chunk_lines_pos_spec (L : List String) (n : Int) (hn : 1 ≤ n) :
    ∃ cs, chunk_lines₁ L n = some cs ∧ chunk_lines₂ L n = cs ∧
      cs.length = L.length / n.toNat ∧
      (∀ c ∈ cs, c.length = n.toNat) ∧
      cs.flatten = L.take ((L.length / n.toNat) * n.toNat) ∧
      (L = [] → cs = []) ∧
      (L.length < n.toNat → cs = []) := by
  refine ⟨chunksSpec n.toNat L, chunk_lines₁_eq L n hn, chunk_lines₂_eq L n hn,
    chunksSpec_length _ _, fun c hc => chunksSpec_mem_length _ _ c hc,
    chunksSpec_flatten _ _, ?_, ?_⟩
  · rintro rfl
    rw [← List.length_eq_zero, chunksSpec_length]
    simp
  · intro hlt
    rw [← List.length_eq_zero, chunksSpec_length]
    exact Nat.div_eq_of_lt hlt

/-- Witness for C1 at `L = ["x", "y", "z"]`, `n = 2`. -/
theorem chunk_lines_pos_spec_witness :
    1 ≤ (2 : Int) ∧
    ∃ cs, chunk_lines₁ ["x", "y", "z"] 2 = some cs ∧
      chunk_lines₂ ["x", "y", "z"] 2 = cs ∧
      cs.length = (["x", "y", "z"] : List String).length / (2 : Int).toNat ∧
      (∀ c ∈ cs, c.length = (2 : Int).toNat) ∧
      cs.flatten = (["x", "y", "z"] : List String).take
        (((["x", "y", "z"] : List String).length / (2 : Int).toNat) * (2 : Int).toNat) ∧
      (["x", "y", "z"] = ([] : List String) → cs = []) ∧
      ((["x", "y", "z"] : List String).length < (2 : Int).toNat → cs = []) :=
  ⟨by norm_num, chunk_lines_pos_spec ["x", "y", "z"] 2 (by norm_num)⟩

/-- C10: the two tools' `chunk_lines` implementations agree on every `n ≥ 1`
(the validated domain); out of contract, tool 2 returns the empty list for all
`n ≤ 0` while tool 1 leaves the division unguarded and raises
`ZeroDivisionError` at `n = 0`. -/
theorem chunk_lines_equiv (L : List String) (n : Int) :
    (1 ≤ n → chunk_lines₁ L n = some (chunk_lines₂ L n)) ∧
    (n ≤ 0 → chunk_lines₂ L n = []) ∧
    chunk_lines₁ L 0 = none := by
  refine ⟨fun hn => ?_, fun hn => ?_, ?_⟩
  · rw [chunk_lines₁_eq L n hn, chunk_lines₂_eq L n hn]
  · rw [chunk_lines₂, if_pos hn]
  · rw [chunk_lines₁, if_pos rfl]

/-- Witness for C10 at `L = ["x"]`, `n = 1`. -/
theorem chunk_lines_equiv_witness :
    chunk_lines₁ ["x"] 1 = some (chunk_lines₂ ["x"] 1) ∧
    chunk_lines₂ ["x"] (-3) = [] :=
  ⟨(chunk_lines_equiv ["x"] 1).1 (by norm_num),
   (chunk_lines_equiv ["x"] (-3)).2.1 (by norm_num)⟩

/-- C2: for every `total ≥ 0`, every `first_count` and every positive prune
denominator `P`, the selection of tool 2 is exactly (as a set) the union of the
clamped prefix `[0, first)` with the stride sample `first, first + P, ...` of
indices below `total`, where `first = clamp first_count 0 total`; when
`first_count ≥ total` the clamp makes the stride start at `total`, so it
contributes nothing. Concretely `select_indices 10 2 3 = [0, 1, 2, 5, 8]` and
`select_indices 10 0 3 = [0, 3, 6, 9]`. -/
theorem select_indices_stride_spec (total fc P : Int) (ht : 0 ≤ total)
    (hP : 1 ≤ P) :
    ∃ l, select_indices total fc (some P) = .ok l ∧
      (∀ i : Int, i ∈ l ↔
        (0 ≤ i ∧ i < max 0 (min fc total)) ∨
        (∃ k : Nat, i = max 0 (min fc total) + P * k ∧ i < total)) ∧
      select_indices 10 2 (some 3) = .ok [0, 1, 2, 5, 8] ∧
      select_indices 10 0 (some 3) = .ok [0, 3, 6, 9] := by
  by_cases h0 : total ≤ 0
  · have htz : total = 0 := le_antisymm h0 ht
    subst htz
    refine ⟨[], by unfold select_indices; rw [if_pos le_rfl], ?_, rfl, rfl⟩
    intro i
    simp only [List.not_mem_nil, false_iff, not_or, not_exists, not_and]
    constructor
    · omega
    · intro k hx
      have hk : (0 : Int) ≤ P * k := by positivity
      omega
  · refine ⟨_, select_indices_some_eq total fc P h0 (by omega), ?_, rfl, rfl⟩
    intro i
    rw [mem_sortedSet, List.mem_append, mem_intRange,
      strideLoop_mem_iff P hP _ 0 (total - max 0 (min fc total))
        (max 0 (min fc total)) i (by omega)]
    constructor
    · rintro (h | ⟨k, hx, hk⟩)
      · exact Or.inl h
      · refine Or.inr ⟨k, by linarith [hx], ?_⟩
        have : i = max 0 (min fc total) + 0 + P * k := hx
        linarith [this, hk]
    · rintro (h | ⟨k, hx, hk⟩)
      · exact Or.inl h
      · refine Or.inr ⟨k, by linarith [hx], by linarith [hx, hk]⟩

/-- Witness for C2 at `total = 10`, `first_count = 2`, `P = 3`. -/
theorem select_indices_stride_spec_witness :
    ∃ l, select_indices 10 2 (some 3) = .ok l ∧
      (∀ i : Int, i ∈ l ↔
        (0 ≤ i ∧ i < max 0 (min 2 10)) ∨
        (∃ k : Nat, i = max 0 (min 2 10) + 3 * k ∧ i < 10)) ∧
      select_indices 10 2 (some 3) = .ok [0, 1, 2, 5, 8] ∧
      select_indices 10 0 (some 3) = .ok [0, 3, 6, 9] :=
  select_indices_stride_spec 10 2 3 (by norm_num) (by norm_num)

/-- C3: with the prune denominator absent, the selection of tool 2 is exactly
the clamped prefix `range (clamp first_count 0 total)` — nothing outside it. -/
theorem select_indices_none_spec (total fc : Int) (ht : 0 ≤ total) :
    select_indices total fc none = .ok (intRange (max 0 (min fc total))) := by
  by_cases h0 : total ≤ 0
  · have htz : total = 0 := le_antisymm h0 ht
    subst htz
    unfold select_indices
    rw [if_pos le_rfl]
    have hm : max 0 (min fc 0) = 0 := by omega
    rw [hm]
    rfl
  · rw [select_indices_none_eq total fc h0,
      sortedSet_eq_of_sorted _ (intRange_sorted _) (intRange_nodup _)]

/-- Witness for C3 at `total = 5`, `first_count = 7` (clamped to 5). -/
theorem select_indices_none_spec_witness :
    select_indices 5 7 none = .ok (intRange (max 0 (min 7 5))) :=
  select_indices_none_spec 5 7 (by norm_num)

/-- C4: for every valid input (`total ≥ 0`, any `first_count`, prune denominator
absent or positive) the selection succeeds, is strictly increasing — hence
sorted and duplicate-free — and every element lies in `[0, total)`. It is a
pure Lean function, so determinism is inherent to the embedding. -/
theorem select_indices_invariants (total fc : Int) (p : Option Int)
    (ht : 0 ≤ total) (hp : ∀ P, p = some P → 1 ≤ P) :
    ∃ l, select_indices total fc p = .ok l ∧ l.Pairwise (· < ·) ∧
      ∀ i ∈ l, 0 ≤ i ∧ i < total :=
  select_indices_spec total fc p ht hp

/-- Witness for C4 at `total = 10`, `first_count = 2`, `P = 3`. -/
theorem select_indices_invariants_witness :
    ∃ l, select_indices 10 2 (some 3) = .ok l ∧ l.Pairwise (· < ·) ∧
      ∀ i ∈ l, 0 ≤ i ∧ i < 10 :=
  select_indices_invariants 10 2 (some 3) (by norm_num)
    (fun P hP => by cases hP; norm_num)

/- Main-loop lemmas -/

theorem tool1_loop_dry (e : Env1) (orca slurm cleanup : String)
    (hdry : e.dryRun = true) :
    ∀ (idx : Nat) (chunks : List (List String)),
      tool1_loop e orca slurm cleanup idx chunks = (.exit 0, [])
  | _, [] => by rw [tool1_loop]
  | idx, c :: rest => by
    rw [tool1_loop]
    simp only [hdry, if_true]
    exact tool1_loop_dry e orca slurm cleanup hdry (idx + 1) rest

theorem tool1_loop_fresh (e : Env1) (orca slurm cleanup : String)
    (hdry : e.dryRun = false) (hfresh : ∀ p, e.dirExists p = false) :
    ∀ (idx : Nat) (chunks : List (List String)),
      tool1_loop e orca slurm cleanup idx chunks =
        (.exit 0, writePlan₁ e.out orca slurm cleanup idx chunks)
  | _, [] => by rw [tool1_loop, writePlan₁]
  | idx, c :: rest => by
    have IH := tool1_loop_fresh e orca slurm cleanup hdry hfresh (idx + 1) rest
    rw [tool1_loop, writePlan₁]
    simp [hdry, hfresh, ensure_dir, dirWrites, IH]

theorem tool2_loop_fresh (e : Env2) (orca slurm cleanup : String)
    (hfresh : ∀ p, e.dirExists p = false) :
    ∀ (ord : Nat) (ind : List Int) (chunks : List (List String)),
      (∀ i ∈ ind, 0 ≤ i ∧ i < (chunks.length : Int)) →
      tool2_loop e orca slurm cleanup ord ind chunks =
        (.exit 0, writePlan₂ orca slurm cleanup ord ind chunks)
  | _, [], chunks => fun _ => by rw [tool2_loop, writePlan₂]
  | ord, gi :: rest, chunks => fun hb => by
    have hgi := hb gi (List.mem_cons_self _ _)
    have hlt : gi.toNat < chunks.length := by omega
    have IH := tool2_loop_fresh e orca slurm cleanup hfresh (ord + 1) rest chunks
      (fun i hi => hb i (List.mem_cons_of_mem _ hi))
    rw [tool2_loop, writePlan₂]
    simp [hfresh, hgi.1, List.getElem?_eq_getElem hlt, dirWrites, IH]

theorem tool1_main_fresh (e : Env1) (hdry : e.dryRun = false)
    (hfresh : ∀ p, e.dirExists p = false) (hg : e.geomExists = true)
    (hn : 1 ≤ e.n) :
    tool1_main e = (.exit 0, Eff.mkdirp e.out ::
      writePlan₁ e.out e.orcaText e.slurmText build_cleanup_script₁ 1
        (chunksSpec e.n.toNat e.lines)) := by
  unfold tool1_main
  rw [hg, chunk_lines₁_eq _ _ hn]
  simp only [Bool.not_true, Bool.false_eq_true, if_false, if_neg (by omega : ¬ e.n ≤ 0)]
  by_cases hlen : (chunksSpec e.n.toNat e.lines).length = 0
  · rw [if_pos hlen, List.length_eq_zero.mp hlen, writePlan₁]
  · rw [if_neg hlen, tool1_loop_fresh e _ _ _ hdry hfresh 1 _]

theorem tool2_main_fresh (e : Env2) (hfresh : ∀ p, e.dirExists p = false)
    (hg : e.geomExists = true) (hn : 1 ≤ e.n) (hfc : 0 ≤ e.first)
    (hp : ∀ P, e.prune = some P → 1 ≤ P) :
    ∃ ind, select_indices ((chunk_lines₂ e.lines e.n).length : Int) e.first
        e.prune = .ok ind ∧
      tool2_main e = (.exit 0, writePlan₂ e.orcaText e.slurmText
        build_cleanup_script₂ 1 ind (chunk_lines₂ e.lines e.n)) := by
  obtain ⟨ind, hok, hpw, hbounds⟩ :=
    select_indices_spec ((chunk_lines₂ e.lines e.n).length : Int) e.first e.prune
      (Int.natCast_nonneg _) hp
  refine ⟨ind, hok, ?_⟩
  have hrun : tool2_run e = (.exit 0, writePlan₂ e.orcaText e.slurmText
      build_cleanup_script₂ 1 ind (chunk_lines₂ e.lines e.n)) := by
    unfold tool2_run
    by_cases hlen : (chunk_lines₂ e.lines e.n).length = 0
    · rw [if_pos hlen]
      have hind : ind = [] := by
        rw [hlen] at hok
        unfold select_indices at hok
        rw [if_pos (by norm_num)] at hok
        cases hok
        rfl
      rw [hind, writePlan₂]
    · rw [if_neg hlen, hok]
      by_cases hind : ind = []
      · subst hind
        rw [writePlan₂]
        rfl
      · have hne : ind.isEmpty = false := by
          cases ind with
          | nil => exact absurd rfl hind
          | cons a l => rfl
        simp only [hne, Bool.false_eq_true, if_false]
        exact tool2_loop_fresh e _ _ _ hfresh 1 ind _ hbounds
  unfold tool2_main
  rw [hg]
  simp only [Bool.not_true, Bool.false_eq_true, if_false,
    if_neg (by omega : ¬ e.n ≤ 0), if_neg (by omega : ¬ e.first < 0)]
  cases hpr : e.prune with
  | none => exact hrun
  | some P =>
    have hP := hp P hpr
    dsimp only
    rw [if_neg (by omega : ¬ P ≤ 0)]
    exact hrun

/-- C5: for every selected chunk, the geometry artifact written to its
directory is the chunk's lines joined with newlines plus exactly one trailing
newline, and the job-input and submission-script files carry the resolved
template texts unchanged — the same strings in every selected directory. Stated
as the full write-plan characterization of both tools' mains on a fresh
filesystem (`dirWrites`/`writePlan` spell out the per-directory artifacts). -/
theorem materializer_contents_spec :
    (∀ e : Env1, e.dryRun = false → (∀ p, e.dirExists p = false) →
      e.geomExists = true → 1 ≤ e.n →
      tool1_main e = (.exit 0, Eff.mkdirp e.out ::
        writePlan₁ e.out e.orcaText e.slurmText build_cleanup_script₁ 1
          (chunksSpec e.n.toNat e.lines))) ∧
    (∀ e : Env2, (∀ p, e.dirExists p = false) → e.geomExists = true →
      1 ≤ e.n → 0 ≤ e.first → (∀ P, e.prune = some P → 1 ≤ P) →
      ∃ ind, select_indices ((chunk_lines₂ e.lines e.n).length : Int) e.first
          e.prune = .ok ind ∧
        tool2_main e = (.exit 0, writePlan₂ e.orcaText e.slurmText
          build_cleanup_script₂ 1 ind (chunk_lines₂ e.lines e.n))) :=
  ⟨fun e h1 h2 h3 h4 => tool1_main_fresh e h1 h2 h3 h4,
   fun e h1 h2 h3 h4 h5 => tool2_main_fresh e h1 h2 h3 h4 h5⟩

/-- Concrete environment for the C5 witness: two one-line geometries, fresh
filesystem. -/
def envC5 : Env1 :=
  { geomExists := true, lines := ["a", "b"], n := 1, out := "o", force := false,
    dryRun := false, orcaText := "ORCA", slurmText := "SLURM",
    dirExists := fun _ => false, dirIsDir := fun _ => false,
    dirNonempty := fun _ => false }

/-- Witness for C5: tool 1 on `envC5`. -/
theorem materializer_contents_spec_witness :
    tool1_main envC5 = (.exit 0, Eff.mkdirp envC5.out ::
      writePlan₁ envC5.out envC5.orcaText envC5.slurmText build_cleanup_script₁
        1 (chunksSpec envC5.n.toNat envC5.lines)) :=
  materializer_contents_spec.1 envC5 rfl (fun _ => rfl) rfl (by decide)

/-- Concrete environment for the C7 counterexample: a dry run over a fresh
filesystem whose output root does not exist. -/
def envC7 : Env1 :=
  { geomExists := true, lines := ["l1", "l2"], n := 1, out := "outroot",
    force := false, dryRun := true, orcaText := "O", slurmText := "S",
    dirExists := fun _ => false, dirIsDir := fun _ => false,
    dirNonempty := fun _ => false }

/-- C7 counterexample: the claim says a dry run leaves the filesystem
completely unchanged, the output root included; but tool 1 `mkdir`s the output
root unconditionally before the dry-run branch, so the effect trace of a dry
run on a non-existing output root is not empty — the root gets created. -/
theorem dry_run_counterexample :
    tool1_main envC7 = (.exit 0, [Eff.mkdirp "outroot"]) ∧
    envC7.dirExists "outroot" = false ∧
    (tool1_main envC7).2 ≠ [] := by
  refine ⟨by decide, rfl, by decide⟩

/-- C7 (amended): a dry run of tool 1 with valid inputs performs exactly one
filesystem operation — the unconditional `mkdir` of the output root (a no-op
only when the root already exists) — and exits 0; no numbered directory is
created and no file is written. Validation and chunking still occur. -/
theorem dry_run_effects (e : Env1) (hdry : e.dryRun = true)
    (hg : e.geomExists = true) (hn : 1 ≤ e.n) :
    tool1_main e = (.exit 0, [Eff.mkdirp e.out]) := by
  unfold tool1_main
  rw [hg, chunk_lines₁_eq _ _ hn]
  simp only [Bool.not_true, Bool.false_eq_true, if_false,
    if_neg (by omega : ¬ e.n ≤ 0)]
  by_cases hlen : (chunksSpec e.n.toNat e.lines).length = 0
  · rw [if_pos hlen]
  · rw [if_neg hlen, tool1_loop_dry e _ _ _ hdry 1 _]

/-- Witness for C7 (amended) on `envC7`. -/
theorem dry_run_effects_witness :
    tool1_main envC7 = (.exit 0, [Eff.mkdirp envC7.out]) :=
  dry_run_effects envC7 rfl rfl (by decide)

/-- Concrete environment for the C8 counterexample: geometry list shorter than
one chunk (zero chunks), output root not existing. -/
def envC8 : Env1 :=
  { geomExists := true, lines := ["only-line"], n := 5, out := "fresh-root",
    force := false, dryRun := false, orcaText := "O", slurmText := "S",
    dirExists := fun _ => false, dirIsDir := fun _ => false,
    dirNonempty := fun _ => false }

/-- C8 counterexample: the claim says every empty-result condition exits 0
having created nothing; but tool 1 with zero chunks still `mkdir`s the output
root (which here does not pre-exist), so its effect trace is not empty. -/
theorem empty_result_counterexample :
    tool1_main envC8 = (.exit 0, [Eff.mkdirp "fresh-root"]) ∧
    envC8.dirExists "fresh-root" = false ∧
    (tool1_main envC8).2 ≠ [] := by
  refine ⟨by decide, rfl, by decide⟩

/-- C8 (amended): every configuration error (missing geometry-list file,
non-positive `-n`, negative `-first`, non-positive `-prune` when given) exits
with code 2 before any directory creation or file write, in both tools; every
empty-result condition (zero chunks, empty selection) exits with code 0, tool 2
having created nothing and tool 1 having created nothing beyond its
unconditional `mkdir` of the output root. -/
theorem error_and_empty_exits :
    (∀ e : Env1, e.geomExists = false → tool1_main e = (.exit 2, [])) ∧
    (∀ e : Env1, e.geomExists = true → e.n ≤ 0 →
      tool1_main e = (.exit 2, [])) ∧
    (∀ e : Env2, e.geomExists = false → tool2_main e = (.exit 2, [])) ∧
    (∀ e : Env2, e.geomExists = true → e.n ≤ 0 →
      tool2_main e = (.exit 2, [])) ∧
    (∀ e : Env2, e.geomExists = true → 1 ≤ e.n → e.first < 0 →
      tool2_main e = (.exit 2, [])) ∧
    (∀ e : Env2, e.geomExists = true → 1 ≤ e.n → 0 ≤ e.first →
      ∀ P, e.prune = some P → P ≤ 0 → tool2_main e = (.exit 2, [])) ∧
    (∀ e : Env2, e.geomExists = true → 1 ≤ e.n → 0 ≤ e.first →
      (∀ P, e.prune = some P → 1 ≤ P) → chunk_lines₂ e.lines e.n = [] →
      tool2_main e = (.exit 0, [])) ∧
    (∀ e : Env2, e.geomExists = true → 1 ≤ e.n → 0 ≤ e.first →
      (∀ P, e.prune = some P → 1 ≤ P) →
      select_indices ((chunk_lines₂ e.lines e.n).length : Int) e.first
        e.prune = .ok [] →
      tool2_main e = (.exit 0, [])) ∧
    (∀ e : Env1, e.geomExists = true → 1 ≤ e.n →
      chunk_lines₁ e.lines e.n = some [] →
      tool1_main e = (.exit 0, [Eff.mkdirp e.out])) := by
  have hrun0 : ∀ e : Env2, chunk_lines₂ e.lines e.n = [] →
      tool2_run e = (.exit 0, []) := by
    intro e hch
    unfold tool2_run
    rw [if_pos (by rw [hch]; rfl)]
  have hrunsel : ∀ e : Env2,
      select_indices ((chunk_lines₂ e.lines e.n).length : Int) e.first
        e.prune = .ok [] →
      tool2_run e = (.exit 0, []) := by
    intro e hsel
    unfold tool2_run
    by_cases hlen : (chunk_lines₂ e.lines e.n).length = 0
    · rw [if_pos hlen]
    · rw [if_neg hlen, hsel]
      rfl
  have hmain2 : ∀ e : Env2, e.geomExists = true → 1 ≤ e.n → 0 ≤ e.first →
      (∀ P, e.prune = some P → 1 ≤ P) →
      tool2_main e = tool2_run e := by
    intro e hg hn hfc hp
    unfold tool2_main
    rw [hg]
    simp only [Bool.not_true, Bool.false_eq_true, if_false,
      if_neg (by omega : ¬ e.n ≤ 0), if_neg (by omega : ¬ e.first < 0)]
    cases hpr : e.prune with
    | none => rfl
    | some P =>
      have hP := hp P hpr
      dsimp only
      rw [if_neg (by omega : ¬ P ≤ 0)]
  refine ⟨?_, ?_, ?_, ?_, ?_, ?_, ?_, ?_, ?_⟩
  · intro e hg
    unfold tool1_main
    rw [hg]
    rfl
  · intro e hg hn
    unfold tool1_main
    rw [hg]
    simp only [Bool.not_true, Bool.false_eq_true, if_false, if_pos hn]
  · intro e hg
    unfold tool2_main
    rw [hg]
    rfl
  · intro e hg hn
    unfold tool2_main
    rw [hg]
    simp only [Bool.not_true, Bool.false_eq_true, if_false, if_pos hn]
  · intro e hg hn hfc
    unfold tool2_main
    rw [hg]
    simp only [Bool.not_true, Bool.false_eq_true, if_false,
      if_neg (by omega : ¬ e.n ≤ 0), if_pos hfc]
  · intro e hg hn hfc P hpr hP
    unfold tool2_main
    rw [hg]
    simp only [Bool.not_true, Bool.false_eq_true, if_false,
      if_neg (by omega : ¬ e.n ≤ 0), if_neg (by omega : ¬ e.first < 0), hpr]
    rw [if_pos hP]
  · intro e hg hn hfc hp hch
    rw [hmain2 e hg hn hfc hp, hrun0 e hch]
  · intro e hg hn hfc hp hsel
    rw [hmain2 e hg hn hfc hp, hrunsel e hsel]
  · intro e hg hn hch
    unfold tool1_main
    rw [hg, hch]
    simp only [Bool.not_true, Bool.false_eq_true, if_false,
      if_neg (by omega : ¬ e.n ≤ 0)]
    rfl

/-- Concrete environment for the C8 witness: the geometry list is missing. -/
def envC8b : Env1 :=
  { geomExists := false, lines := [], n := 3, out := "r", force := false,
    dryRun := false, orcaText := "O", slurmText := "S",
    dirExists := fun _ => false, dirIsDir := fun _ => false,
    dirNonempty := fun _ => false }

/-- Witness for C8 (amended): a missing geometry list makes tool 1 exit 2 with
no effects. -/
theorem error_and_empty_exits_witness :
    tool1_main envC8b = (.exit 2, []) :=
  error_and_empty_exits.1 envC8b rfl

/-- Environment for C9: one chunk, and the target directory `out/1` (tool 1)
or `1` (tool 2) already exists, is a directory and is non-empty. -/
def envC9 : Env1 :=
  { geomExists := true, lines := ["a"], n := 1, out := "out", force := false,
    dryRun := false, orcaText := "O", slurmText := "S",
    dirExists := fun _ => true, dirIsDir := fun _ => true,
    dirNonempty := fun _ => true }

/-- The same conflicted filesystem with `--force` set. -/
def envC9f : Env1 :=
  { geomExists := true, lines := ["a"], n := 1, out := "out", force := true,
    dryRun := false, orcaText := "O", slurmText := "S",
    dirExists := fun _ => true, dirIsDir := fun _ => true,
    dirNonempty := fun _ => true }

/-- The conflicted filesystem for tool 2. -/
def envC9t2 : Env2 :=
  { geomExists := true, lines := ["a"], n := 1, first := 1, prune := none,
    orcaText := "O", slurmText := "S",
    dirExists := fun _ => true, dirIsDir := fun _ => true,
    dirNonempty := fun _ => true }

/-- C9 evaluated at the failing input: on a pre-existing non-empty numbered
directory, tool 1 without `--force` does not exit cleanly with code 2 — the
`RuntimeError` raised by `ensure_dir` is caught nowhere, so the process crashes
(Python prints a traceback and exits with status 1), though no file is written
into the directory and the batch stops immediately. Tool 2 behaves as the
claim says (clean exit 2, nothing written), and tool 1 with `--force` proceeds
and overwrites. -/
theorem directory_conflict_eval :
    tool1_main envC9 =
      (.crash ("Directory out/1 already exists and is not empty. " ++
        "Use --force to allow reuse."), [Eff.mkdirp "out"]) ∧
    tool2_main envC9t2 = (.exit 2, []) ∧
    tool1_main envC9f =
      (.exit 0, [Eff.mkdirp "out",
        Eff.write "out/1/geometry.xyz" "a\n" false,
        Eff.write "out/1/orca6.inp" "O" false,
        Eff.write "out/1/job.slurm" "S" false,
        Eff.write "out/1/cleanup.sh" build_cleanup_script₁ true]) := by
  refine ⟨by decide, by decide, by decide⟩

/-- C6 counterexample: the cleanup script written by tool 1 is not, character
for character, the text given in spec section 6 (the spec text is an abridged
rendering without the comment and blank lines and with a different pattern
layout), and the two tools do not embed the same string (tool 2 lacks one
comment line and carries a mojibake dash). -/
theorem cleanup_script_counterexample :
    build_cleanup_script₁ ≠ specCleanupScript ∧
    build_cleanup_script₂ ≠ specCleanupScript ∧
    build_cleanup_script₁ ≠ build_cleanup_script₂ := by
  refine ⟨by decide, by decide, by decide⟩

/-- Splitting a character list at newline characters, for comparing scripts
line by line. -/
def splitOnNl : List Char → List (List Char)
  | [] => [[]]
  | c :: rest =>
    match splitOnNl rest with
    | [] => [[]]
    | line :: ls => if c = '\n' then [] :: line :: ls else (c :: line) :: ls

/-- The lines of a string, as character lists. -/
def scriptLines (s : String) : List (List Char) :=
  splitOnNl s.data

/-- C6 (amended): each tool writes its own fixed cleanup-script constant into
every materialized directory; the two constants agree on every line that is
not a comment (does not start with a hash character), differing only in
comment text — tool 1 has an extra comment line and a proper em dash where
tool 2 has a three-character mojibake sequence — and neither equals the spec
section 6 text character for character. -/
theorem cleanup_script_amended :
    (scriptLines build_cleanup_script₁).filter
        (fun l => !(l.head? == some (Char.ofNat 35))) =
      (scriptLines build_cleanup_script₂).filter
        (fun l => !(l.head? == some (Char.ofNat 35))) ∧
    build_cleanup_script₁ ≠ specCleanupScript ∧
    build_cleanup_script₂ ≠ specCleanupScript := by
  refine ⟨by decide, by decide, by decide⟩

end Orca
